import Mathlib

/-!
Verification of the session and access-control subsystem of the stock-backend
service (source: backend-zerodha-api.js). The Redis store is modelled as an
explicit state value; each backend function and route handler that the claims
touch is translated into a pure Lean function over that state, keeping the
order of checks, the lowercasing discipline, and the error handling of the
source. Machine-level pieces (SHA-256 over 32-bit words) are modelled on Nat
with explicit reduction modulo 2 ^ 32.
-/

namespace StockBackend

/-! ## 32-bit word arithmetic for SHA-256 (crypto.createHash used by the
Zerodha OAuth callback). Words are Nat values kept below 2 ^ 32. -/

/-- Addition modulo 2 ^ 32, the word addition of SHA-256. -/
def add32 (a b : Nat) : Nat := (a + b) % 4294967296

/-- Bitwise complement on 32-bit words. -/
def not32 (a : Nat) : Nat := Nat.xor a 4294967295

/-- Right rotation of a 32-bit word by n positions (0 < n < 32). -/
def rotr32 (n x : Nat) : Nat := x / 2 ^ n + x % 2 ^ n * 2 ^ (32 - n)

/-- Logical right shift of a 32-bit word. -/
def shr32 (n x : Nat) : Nat := x / 2 ^ n

/-- SHA-256 small sigma 0: rotr 7 xor rotr 18 xor shr 3. -/
def sigLow0 (x : Nat) : Nat := Nat.xor (Nat.xor (rotr32 7 x) (rotr32 18 x)) (shr32 3 x)

/-- SHA-256 small sigma 1: rotr 17 xor rotr 19 xor shr 10. -/
def sigLow1 (x : Nat) : Nat := Nat.xor (Nat.xor (rotr32 17 x) (rotr32 19 x)) (shr32 10 x)

/-- SHA-256 big sigma 0: rotr 2 xor rotr 13 xor rotr 22. -/
def sigHigh0 (x : Nat) : Nat := Nat.xor (Nat.xor (rotr32 2 x) (rotr32 13 x)) (rotr32 22 x)

/-- SHA-256 big sigma 1: rotr 6 xor rotr 11 xor rotr 25. -/
def sigHigh1 (x : Nat) : Nat := Nat.xor (Nat.xor (rotr32 6 x) (rotr32 11 x)) (rotr32 25 x)

/-- SHA-256 choice function. -/
def ch32 (e f g : Nat) : Nat := Nat.xor (Nat.land e f) (Nat.land (not32 e) g)

/-- SHA-256 majority function. -/
def maj32 (a b c : Nat) : Nat :=
  Nat.xor (Nat.xor (Nat.land a b) (Nat.land a c)) (Nat.land b c)

/-- The 64 SHA-256 round constants, in decimal. -/
def K256 : List Nat :=
  [1116352408, 1899447441, 3049323471, 3921009573, 961987163,
   1508970993, 2453635748, 2870763221, 3624381080, 310598401, 607225278,
   1426881987, 1925078388, 2162078206, 2614888103, 3248222580,
   3835390401, 4022224774, 264347078, 604807628, 770255983, 1249150122,
   1555081692, 1996064986, 2554220882, 2821834349, 2952996808,
   3210313671, 3336571891, 3584528711, 113926993, 338241895, 666307205,
   773529912, 1294757372, 1396182291, 1695183700, 1986661051,
   2177026350, 2456956037, 2730485921, 2820302411, 3259730800,
   3345764771, 3516065817, 3600352804, 4094571909, 275423344, 430227734,
   506948616, 659060556, 883997877, 958139571, 1322822218, 1537002063,
   1747873779, 1955562222, 2024104815, 2227730452, 2361852424,
   2428436474, 2756734187, 3204031479, 3329325298]

/-- Working state of the SHA-256 compression function. -/
structure Hash8 where
  a : Nat
  b : Nat
  c : Nat
  d : Nat
  e : Nat
  f : Nat
  g : Nat
  h : Nat
deriving Repr, DecidableEq

/-- Initial SHA-256 hash value, in decimal. -/
def sha256init : Hash8 :=
  ⟨1779033703, 3144134277, 1013904242, 2773480762, 1359893119,
   2600822924, 528734635, 1541459225⟩

/-- Extend the message schedule: fuel counts the words still to produce; the
accumulator keeps the schedule produced so far, newest word first. -/
def extendSchedule : Nat → List Nat → List Nat
  | 0, acc => acc
  | fuel + 1, acc =>
      let nw := add32 (add32 (sigLow1 (acc.getD 1 0)) (acc.getD 6 0))
                      (add32 (sigLow0 (acc.getD 14 0)) (acc.getD 15 0))
      extendSchedule fuel (nw :: acc)

/-- The 64-word message schedule of one 16-word block. -/
def messageSchedule (block : List Nat) : List Nat :=
  (extendSchedule 48 block.reverse).reverse

/-- One SHA-256 compression round, driven by a (round constant, schedule word)
pair. -/
def round256 (s : Hash8) (kw : Nat × Nat) : Hash8 :=
  let t1 := add32 s.h (add32 (sigHigh1 s.e) (add32 (ch32 s.e s.f s.g) (add32 kw.1 kw.2)))
  let t2 := add32 (sigHigh0 s.a) (maj32 s.a s.b s.c)
  ⟨add32 t1 t2, s.a, s.b, s.c, add32 s.d t1, s.e, s.f, s.g⟩

/-- Compress one 16-word block into the running hash value. -/
def compressBlock (hs : Hash8) (block : List Nat) : Hash8 :=
  let w := messageSchedule block
  let s := (K256.zip w).foldl round256 hs
  ⟨add32 hs.a s.a, add32 hs.b s.b, add32 hs.c s.c, add32 hs.d s.d,
   add32 hs.e s.e, add32 hs.f s.f, add32 hs.g s.g, add32 hs.h s.h⟩

/-- Fold the compression function over the 16-word blocks of a padded
message; the fuel argument (instantiated with the word count) keeps the
recursion structural so that it reduces inside the kernel. -/
def processBlocksGo : Nat → Hash8 → List Nat → Hash8
  | _, hs, [] => hs
  | 0, hs, _ => hs
  | fuel + 1, hs, w :: rest =>
      processBlocksGo fuel (compressBlock hs (w :: rest.take 15)) (rest.drop 15)

/-- Fold the compression function over the 16-word blocks of a padded
message. -/
def processBlocks (hs : Hash8) (ws : List Nat) : Hash8 :=
  processBlocksGo ws.length hs ws

/-- Big-endian byte expansion of a number into k bytes. -/
def toBytesBE (k n : Nat) : List Nat :=
  (List.range k).map (fun i => n / 2 ^ (8 * (k - 1 - i)) % 256)

/-- Group bytes into big-endian 32-bit words, four bytes at a time. -/
def bytesToWords : List Nat → List Nat
  | b0 :: b1 :: b2 :: b3 :: rest =>
      (((b0 * 256 + b1) * 256 + b2) * 256 + b3) :: bytesToWords rest
  | _ => []

/-- SHA-256 padding: append 0x80, zeros, and the 64-bit big-endian bit
length, reaching a multiple of 64 bytes. -/
def sha256pad (msg : List Nat) : List Nat :=
  let L := msg.length
  msg ++ 0x80 :: List.replicate ((119 - L % 64) % 64) 0 ++ toBytesBE 8 (8 * L)

/-- SHA-256 digest of a byte list, as 32 bytes. -/
def sha256bytes (msg : List Nat) : List Nat :=
  let final := processBlocks sha256init (bytesToWords (sha256pad msg))
  toBytesBE 4 final.a ++ toBytesBE 4 final.b ++ toBytesBE 4 final.c ++
  toBytesBE 4 final.d ++ toBytesBE 4 final.e ++ toBytesBE 4 final.f ++
  toBytesBE 4 final.g ++ toBytesBE 4 final.h

/-- Lowercase hex digit for a value below 16. -/
def hexDigit (n : Nat) : Char :=
  if n < 10 then Char.ofNat (48 + n) else Char.ofNat (87 + n)

/-- Lowercase hex rendering of a byte list. -/
def toHexString (bs : List Nat) : String :=
  ⟨bs.foldr (fun b acc => hexDigit (b / 16) :: hexDigit (b % 16) :: acc) []⟩

/-- Bytes of a string under the ASCII reading (the callback inputs are ASCII,
where UTF-8 and code points coincide). -/
def strBytes (s : String) : List Nat := s.data.map Char.toNat

/-- Hex-encoded SHA-256 digest of a string, the model of
crypto.createHash applied to sha256 with hex output. -/
def sha256hex (s : String) : String := toHexString (sha256bytes (strBytes s))

/-! ## Data model: the Redis store and the session records.

Zerodha sessions live under keys session:token, Google sessions under
google_session:token; the whitelist and admin sets are Redis sets. Store
errors in the source are thrown by the redis client and caught by each
function; the flag failing models a store whose operations all raise. -/

/-- Parsed payload of a session:token record (Zerodha). -/
structure ZerodhaSession where
  access_token : String
  user_id : String
deriving Repr, DecidableEq

/-- Parsed payload of a google_session:token record. Optional fields model
absent JSON properties; expires_at is a wall-clock timestamp. -/
structure GoogleSession where
  access_token : String
  email : Option String
  guser_id : Option String
  expires_at : Option Nat
deriving Repr, DecidableEq

/-- The Redis state visible to the access-control subsystem. -/
structure Store where
  zsessions : List (String × ZerodhaSession)
  gsessions : List (String × GoogleSession)
  whitelist : List String
  admins : List String
  failing : Bool
deriving Repr, DecidableEq

/-- Key lookup in an association list, the model of redis get. -/
def rget {β : Type} (l : List (String × β)) (k : String) : Option β :=
  match l with
  | [] => none
  | (k2, v) :: rest => if k2 = k then some v else rget rest k

/-- Key removal, the model of redis del. -/
def rdel {β : Type} (l : List (String × β)) (k : String) : List (String × β) :=
  l.filter (fun p => p.1 ≠ k)

/-- Set insertion, the model of redis sAdd. -/
def sAddL (l : List String) (m : String) : List String :=
  if l.contains m then l else m :: l

/-- Set removal, the model of redis sRem. -/
def sRemL (l : List String) (m : String) : List String :=
  l.filter (fun x => x ≠ m)

/-- ASCII lowercasing of one character, the model of the case folding
toLowerCase performs on the email and user-id identifiers of this system. -/
def charLower (c : Char) : Char :=
  if 65 ≤ c.toNat ∧ c.toNat ≤ 90 then Char.ofNat (c.toNat + 32) else c

/-- Model of String.prototype.toLowerCase over the ASCII identifiers the
registry stores. -/
def jsToLower (s : String) : String := ⟨s.data.map charLower⟩

/-- JavaScript truthiness of an optional string: undefined and the empty
string are falsy. -/
def jsTruthy : Option String → Bool
  | none => false
  | some s => s ≠ ""

/-- JavaScript a or b on optional strings: b when a is falsy. -/
def jsOr (a b : Option String) : Option String :=
  if jsTruthy a then a else b

/-! ## Whitelist/admin registry functions (isUserWhitelisted, addToWhitelist,
removeFromWhitelist, isUserAdmin, addAdmin). ENABLE_WHITELIST is an
environment switch, passed explicitly. Every function lowercases the
identifier before touching the store and fails closed on store errors. -/

/-- Model of isUserWhitelisted: true unconditionally when the whitelist
feature is disabled; false for a falsy identifier; false when the store
raises; otherwise set membership of the lowercased identifier. -/
def isUserWhitelisted (enable : Bool) (st : Store) (identifier : String) : Bool :=
  if enable = false then true
  else if identifier = "" then false
  else if st.failing then false
  else st.whitelist.contains (jsToLower identifier)

/-- Model of addToWhitelist: returns whether the call succeeded and the
updated store. -/
def addToWhitelist (st : Store) (identifier : String) : Bool × Store :=
  if identifier = "" then (false, st)
  else if st.failing then (false, st)
  else (true, { st with whitelist := sAddL st.whitelist (jsToLower identifier) })

/-- Model of removeFromWhitelist. -/
def removeFromWhitelist (st : Store) (identifier : String) : Bool × Store :=
  if identifier = "" then (false, st)
  else if st.failing then (false, st)
  else (true, { st with whitelist := sRemL st.whitelist (jsToLower identifier) })

/-- Model of isUserAdmin: membership of the lowercased identifier in the
admin set, failing closed. -/
def isUserAdmin (st : Store) (identifier : String) : Bool :=
  if identifier = "" then false
  else if st.failing then false
  else st.admins.contains (jsToLower identifier)

/-- Model of addAdmin. -/
def addAdmin (st : Store) (identifier : String) : Bool × Store :=
  if identifier = "" then (false, st)
  else if st.failing then (false, st)
  else (true, { st with admins := sAddL st.admins (jsToLower identifier) })

/-! ## Session-token resolution inside the two middlewares.

Both middlewares read the token from req.query.session or
req.body.session_token, probe the Zerodha namespace first and the Google
namespace second, and derive the identity as user_data.email falling back
to user_data.user_id for Google sessions and user_id for Zerodha sessions.
Only checkWhitelistMiddleware additionally compares a stored expires_at
with the wall clock and deletes the record on expiry. -/

/-- Outcome of resolving a session token. -/
inductive Resolution
  | noToken
  | storeError
  | notFound
  | expired
  | okId (identifier : String) (fromGoogle : Bool)
deriving Repr, DecidableEq

/-- Identity derivation from a Google session record, shared verbatim by
both middlewares: user email, falling back to user id, both possibly
absent; a falsy result leaves the request unidentified. -/
def googleUid (g : GoogleSession) (st : Store) : Resolution × Store :=
  match jsOr g.email g.guser_id with
  | none => (.notFound, st)
  | some uid => if uid = "" then (.notFound, st) else (.okId uid true, st)

/-- Token resolution of checkWhitelistMiddleware: Zerodha namespace first,
then Google with the lazy-expiry check that deletes an expired record. -/
def resolveForWhitelist (st : Store) (token : Option String) (now : Nat) :
    Resolution × Store :=
  match token with
  | none => (.noToken, st)
  | some tok =>
    if tok = "" then (.noToken, st)
    else if st.failing then (.storeError, st)
    else
      match rget st.zsessions tok with
      | some z =>
          if z.user_id = "" then (.notFound, st) else (.okId z.user_id false, st)
      | none =>
        match rget st.gsessions tok with
        | none => (.notFound, st)
        | some g =>
          match g.expires_at with
          | some e =>
              if now > e then (.expired, { st with gsessions := rdel st.gsessions tok })
              else googleUid g st
          | none => googleUid g st

/-- Token resolution of checkAdminMiddleware: identical lookup and identity
derivation, with no expiry check anywhere. -/
def resolveForAdmin (st : Store) (token : Option String) : Resolution × Store :=
  match token with
  | none => (.noToken, st)
  | some tok =>
    if tok = "" then (.noToken, st)
    else if st.failing then (.storeError, st)
    else
      match rget st.zsessions tok with
      | some z =>
          if z.user_id = "" then (.notFound, st) else (.okId z.user_id false, st)
      | none =>
        match rget st.gsessions tok with
        | none => (.notFound, st)
        | some g => googleUid g st

/-- Observable outcome of a middleware: forward the request, with the
identity it attaches, or answer with an HTTP status. -/
inductive MwOutcome
  | next (identifier : Option String)
  | reject (status : Nat)
deriving Repr, DecidableEq

/-- Model of checkWhitelistMiddleware. When the whitelist feature is off the
request is forwarded without resolving identity; otherwise the token is
resolved and the whitelist consulted. -/
def checkWhitelistMiddleware (enable : Bool) (st : Store) (token : Option String)
    (now : Nat) : MwOutcome × Store :=
  if enable = false then (.next none, st)
  else
    match resolveForWhitelist st token now with
    | (.noToken, st2) => (.reject 401, st2)
    | (.storeError, st2) => (.reject 500, st2)
    | (.notFound, st2) => (.reject 401, st2)
    | (.expired, st2) => (.reject 401, st2)
    | (.okId uid _, st2) =>
        if isUserWhitelisted enable st2 uid then (.next (some uid), st2)
        else (.reject 403, st2)

/-- Model of checkAdminMiddleware. SUPER_ADMIN_MODE forwards every request
with a synthetic identity; otherwise the token is resolved (with no expiry
check) and the admin set consulted. -/
def checkAdminMiddleware (superAdminMode : Bool) (st : Store) (token : Option String) :
    MwOutcome × Store :=
  if superAdminMode then (.next (some "super_admin"), st)
  else
    match resolveForAdmin st token with
    | (.noToken, st2) => (.reject 401, st2)
    | (.storeError, st2) => (.reject 500, st2)
    | (.notFound, st2) => (.reject 401, st2)
    | (.expired, st2) => (.reject 401, st2)
    | (.okId uid _, st2) =>
        if isUserAdmin st2 uid then (.next (some uid), st2)
        else (.reject 403, st2)

/-! ## POST /api/admin/setup: the one-time bootstrap endpoint. -/

/-- Result of the setup endpoint, by response branch. -/
inductive SetupResult
  | forbidden
  | badRequest
  | conflict
  | created
  | serverError
deriving Repr, DecidableEq

/-- Model of the handler of POST /api/admin/setup. The configured
INITIAL_ADMIN_SETUP_KEY and the submitted setup_key and admin_identifier
are optional strings; the source checks the setup key first, then the
identifier, then the admin-count guard, and only then mutates the sets. -/
def adminSetup (cfgKey setupKey adminId : Option String) (st : Store) :
    SetupResult × Store :=
  if jsTruthy cfgKey = false ∨ setupKey ≠ cfgKey then (.forbidden, st)
  else if jsTruthy adminId = false then (.badRequest, st)
  else if st.failing then (.serverError, st)
  else if 0 < st.admins.length then (.conflict, st)
  else
    let idv := adminId.getD ""
    let r1 := addAdmin st idv
    let r2 := addToWhitelist r1.2 idv
    if r1.1 && r2.1 then (.created, r2.2) else (.serverError, r2.2)

/-! ## GET /api/zerodha/auth/callback: the broker token exchange. -/

/-- Form submitted to the provider token endpoint. -/
structure TokenRequest where
  api_key : String
  request_token : String
  api_secret : String
  checksum : String
deriving Repr, DecidableEq

/-- The form the callback builds: the checksum field is the hex SHA-256 of
the concatenation apiKey ++ requestToken ++ apiSecret, in that order. -/
def tokenExchangeForm (apiKey requestToken apiSecret : String) : TokenRequest :=
  { api_key := apiKey, request_token := requestToken, api_secret := apiSecret,
    checksum := sha256hex (apiKey ++ requestToken ++ apiSecret) }

/-- Reply of the provider token endpoint: a token payload, an HTTP error
status, or a transport failure with no status. -/
inductive ProviderResponse
  | success (access_token : String) (user_id : String)
  | httpError (status : Nat)
  | networkError
deriving Repr, DecidableEq

/-- Response of the callback handler, by branch. -/
inductive CallbackResult
  | badRequest
  | redirect (sessionToken : String)
  | conflict
  | forbidden
  | serverError
deriving Repr, DecidableEq

/-- HTTP status of each callback response branch, as written in the
source. -/
def callbackStatus : CallbackResult → Nat
  | .badRequest => 400
  | .redirect _ => 302
  | .conflict => 409
  | .forbidden => 403
  | .serverError => 500

/-- Model of the handler of GET /api/zerodha/auth/callback. The provider is
a parameter; newToken stands for the fresh random session token. Provider
status 409 maps to 409, status 403 to 403, anything else to 500; on success
a Zerodha session record is stored under the new token. -/
def zerodhaCallback (apiKey apiSecret requestToken : Option String)
    (exchange : TokenRequest → ProviderResponse) (newToken : String)
    (st : Store) : CallbackResult × Store :=
  match requestToken with
  | none => (.badRequest, st)
  | some rt =>
    if rt = "" then (.badRequest, st)
    else if jsTruthy apiKey = false ∨ jsTruthy apiSecret = false then (.serverError, st)
    else
      match exchange (tokenExchangeForm (apiKey.getD "") rt (apiSecret.getD "")) with
      | .success tk uid =>
          if st.failing then (.serverError, st)
          else (.redirect newToken,
                { st with zsessions := (newToken, { access_token := tk, user_id := uid })
                    :: st.zsessions })
      | .httpError status =>
          if status = 409 then (.conflict, st)
          else if status = 403 then (.forbidden, st)
          else (.serverError, st)
      | .networkError => (.serverError, st)

/-! ## POST /api/admin/whitelist/remove and the undeclared ADMIN_EMAIL.

The handler compares the identifier with ADMIN_EMAIL, a name the module
never declares; in JavaScript, reading an undeclared identifier raises
ReferenceError even under optional chaining, and the handler catches every
exception into its 500 branch. The module scope is modelled as the list of
names the source declares at top level, each with the kind of value it
holds. -/

/-- Value kinds a module-scope binding can hold, as far as this handler can
observe them. -/
inductive JsVal
  | undef
  | str (s : String)
  | obj
deriving Repr, DecidableEq

/-- The top-level bindings of backend-zerodha-api.js, in source order:
requires, app objects, configuration constants and function declarations,
plus the ambient Node globals the module uses. ADMIN_EMAIL is not among
them. -/
def backendScope : List (String × JsVal) :=
  [("require", .obj), ("process", .obj), ("console", .obj), ("module", .obj),
   ("express", .obj), ("axios", .obj), ("cors", .obj), ("qs", .obj),
   ("crypto", .obj), ("redis", .obj), ("GoogleGenerativeAI", .obj),
   ("app", .obj), ("PORT", .obj),
   ("apiKey", .undef), ("apiSecret", .undef), ("redirectUri", .undef),
   ("genAI", .obj), ("model", .obj),
   ("listModelsDirectly", .obj), ("findWorkingModel", .obj),
   ("testGeminiAPI", .obj), ("redisConfig", .obj), ("redisClient", .obj),
   ("AZURE_SEARCH_ENDPOINT", .undef), ("AZURE_SEARCH_INDEX", .undef),
   ("AZURE_SEARCH_QUERY_KEY", .undef),
   ("AZURE_SEARCH_API_VERSION", .str "2020-06-30"),
   ("ENABLE_WHITELIST", .obj), ("WHITELIST_KEY", .str "user_whitelist"),
   ("ADMIN_WHITELIST_KEY", .str "admin_whitelist"),
   ("INITIAL_ADMIN_SETUP_KEY", .undef), ("SUPER_ADMIN_MODE", .obj),
   ("azureSearch", .obj), ("azureGetDocumentById", .obj),
   ("isUserWhitelisted", .obj), ("addToWhitelist", .obj),
   ("removeFromWhitelist", .obj), ("getWhitelistedUsers", .obj),
   ("isUserAdmin", .obj), ("addAdmin", .obj), ("getAdminUsers", .obj),
   ("initializeSystem", .obj), ("checkWhitelistMiddleware", .obj),
   ("checkAdminMiddleware", .obj), ("getAIRecommendations", .obj)]

/-- Evaluation of ADMIN_EMAIL with optional chaining of toLowerCase: an
undefined value short-circuits to undefined, a string lowercases, and a
non-string raises TypeError; the error case covers both that and the
ReferenceError of an undeclared name, each of which the handler catches. -/
def jsOptToLower : JsVal → Except Unit (Option String)
  | .undef => .ok none
  | .str s => .ok (some (jsToLower s))
  | .obj => .error ()

/-- Response branches of POST /api/admin/whitelist/remove. -/
inductive RemoveResult
  | badRequest
  | blockedAdmin
  | removed (verified : Bool)
  | removeFailed
  | internalError
deriving Repr, DecidableEq

/-- HTTP status of each whitelist-remove response branch, as written in the
source. -/
def removeStatus : RemoveResult → Nat
  | .badRequest => 400
  | .blockedAdmin => 400
  | .removed _ => 200
  | .removeFailed => 500
  | .internalError => 500

/-- Model of the handler body of POST /api/admin/whitelist/remove, entered
after checkAdminMiddleware has forwarded the request. The scope parameter
is the module scope in which the ADMIN_EMAIL reference is evaluated. -/
def whitelistRemove (enable : Bool) (scope : List (String × JsVal))
    (identifier : Option String) (st : Store) : RemoveResult × Store :=
  match identifier with
  | none => (.badRequest, st)
  | some idv =>
    if idv = "" then (.badRequest, st)
    else
      match rget scope "ADMIN_EMAIL" with
      | none => (.internalError, st)
      | some v =>
        match jsOptToLower v with
        | .error _ => (.internalError, st)
        | .ok lowered =>
          if lowered = some (jsToLower idv) then (.blockedAdmin, st)
          else
            let r := removeFromWhitelist st idv
            if r.1 then (.removed (!(isUserWhitelisted enable r.2 idv)), r.2)
            else (.removeFailed, r.2)

/-! ## Concrete states used by witnesses and counterexamples. -/

/-- An empty, healthy store. -/
def emptyStore : Store := ⟨[], [], [], [], false⟩

/-- A healthy store whose admin set already holds one admin. -/
def stOneAdmin : Store := ⟨[], [], ["root@x.com"], ["root@x.com"], false⟩

/-- A Google session record whose expires_at has passed by time 2000. -/
def gExpired : GoogleSession :=
  { access_token := "at", email := some "u@x.com",
    guser_id := some "G1", expires_at := some 1000 }

/-- A store holding one Google session whose expires_at has passed. -/
def stExpired : Store :=
  ⟨[], [("tkn", gExpired)], ["u@x.com"], ["u@x.com"], false⟩

/-- A healthy store with one whitelisted member. -/
def stOneMember : Store := ⟨[], [], ["a@x.com"], [], false⟩

/-- A store whose operations all raise. -/
def failStore : Store := ⟨[], [], ["a@x.com"], [], true⟩

end StockBackend

namespace StockBackend

/-- Validation of the SHA-256 model against the FIPS 180 test vector for
the message abc. -/
theorem sha256hex_abc :
    sha256hex "abc" =
      "ba7816bf8f01cfea414140de5dae2223b00361a396177a9cb410ff61f20015ad" := by
  decide

/-- Inserting an element with sAddL makes it a member. -/
theorem mem_sAddL (l : List String) (m : String) : m ∈ sAddL l m := by
  unfold sAddL
  split
  · next h => exact List.mem_of_elem_eq_true h
  · exact List.mem_cons_self m l

/-- Removing an element with sRemL leaves no copy of it. -/
theorem not_mem_sRemL (l : List String) (m : String) : m ∉ sRemL l m := by
  intro h
  have := List.of_mem_filter h
  simp at this

/-- Deleting a key with rdel makes later gets of that key miss. -/
theorem rget_rdel {β : Type} (l : List (String × β)) (k : String) :
    rget (rdel l k) k = none := by
  induction l with
  | nil => rfl
  | cons p rest ih =>
      unfold rdel at ih ⊢
      by_cases hp : p.1 = k
      · simpa [List.filter_cons, hp] using ih
      · simpa [List.filter_cons, hp, rget] using ih

/-- The Google identity derivation never changes the store. -/
theorem googleUid_snd (g : GoogleSession) (st : Store) :
    (googleUid g st).2 = st := by
  unfold googleUid
  rcases jsOr g.email g.guser_id with _ | uid
  · rfl
  · by_cases h : uid = "" <;> simp [h]

/-- The Google identity derivation as a pair with its unchanged store. -/
theorem googleUid_eta (g : GoogleSession) (st : Store) :
    googleUid g st = ((googleUid g st).1, st) := by
  conv_lhs => rw [← Prod.mk.eta (p := googleUid g st)]
  rw [googleUid_snd]

/-- Claim C4: with the whitelist feature enabled and a non-empty identifier,
a store error during the membership query makes IsWhitelisted return false;
uncertainty is never treated as membership. -/
theorem isUserWhitelisted_fail_closed (st : Store) (idv : String)
    (h1 : idv ≠ "") (h2 : st.failing = true) :
    isUserWhitelisted true st idv = false := by
  simp [isUserWhitelisted, h1, h2]

/-- Witness for C4 at a concrete failing store and identifier. -/
theorem isUserWhitelisted_fail_closed_wit :
    ("x@y.com" : String) ≠ "" ∧ failStore.failing = true ∧
    isUserWhitelisted true failStore "x@y.com" = false :=
  ⟨by decide, by decide,
   isUserWhitelisted_fail_closed failStore "x@y.com" (by decide) (by decide)⟩

/-- Claim C5: when the whitelist feature is globally disabled IsWhitelisted
returns true for every identifier, including the empty one, and for every
registry state, including a failing store; the store is never consulted. -/
theorem isUserWhitelisted_disabled_true (st : Store) (idv : String) :
    isUserWhitelisted false st idv = true := rfl

/-- Claim C7: the checksum the callback submits equals the hex SHA-256 of
the concatenation apiKey ++ requestToken ++ apiSecret, and at the concrete
inputs K1, R1, S1 it equals the SHA-256 digest of the literal K1R1S1. -/
theorem checksum_is_sha256_of_concat :
    (∀ k rt s : String,
        (tokenExchangeForm k rt s).checksum = sha256hex (k ++ rt ++ s)) ∧
    (tokenExchangeForm "K1" "R1" "S1").checksum =
      "95ddc20ee0a7806fd6e14da06bbde8124d2afc48264d910f52d5f6f026e6f4a5" := by
  exact ⟨fun k rt s => rfl, by decide⟩

/-- Claim C8: a provider reply of transport status 409 makes the callback
answer 409 (artifact already consumed or expired), and a reply of 403 makes
it answer 403 (bad credentials or checksum); neither stores a session. -/
theorem zerodhaCallback_error_mapping (k s rt newTok : String) (st : Store)
    (hk : k ≠ "") (hs : s ≠ "") (hrt : rt ≠ "") :
    zerodhaCallback (some k) (some s) (some rt)
        (fun _ => .httpError 409) newTok st = (.conflict, st) ∧
    zerodhaCallback (some k) (some s) (some rt)
        (fun _ => .httpError 403) newTok st = (.forbidden, st) ∧
    callbackStatus .conflict = 409 ∧ callbackStatus .forbidden = 403 := by
  refine ⟨?_, ?_, rfl, rfl⟩ <;> simp [zerodhaCallback, jsTruthy, hk, hs, hrt]

/-- Witness for C8 at concrete credentials and request artifact. -/
theorem zerodhaCallback_error_mapping_wit :
    ("K1" : String) ≠ "" ∧ ("S1" : String) ≠ "" ∧ ("R1" : String) ≠ "" ∧
    (zerodhaCallback (some "K1") (some "S1") (some "R1")
        (fun _ => .httpError 409) "nt" emptyStore = (.conflict, emptyStore) ∧
     zerodhaCallback (some "K1") (some "S1") (some "R1")
        (fun _ => .httpError 403) "nt" emptyStore = (.forbidden, emptyStore) ∧
     callbackStatus .conflict = 409 ∧ callbackStatus .forbidden = 403) :=
  ⟨by decide, by decide, by decide,
   zerodhaCallback_error_mapping "K1" "S1" "R1" "nt" emptyStore
     (by decide) (by decide) (by decide)⟩

/-- Counterexample to claim C9 as stated over every identifier: the empty
identifier is a case variant of itself, yet AddToWhitelist of it followed by
IsWhitelisted of it yields false, because both functions bail out on a falsy
identifier before any set operation. -/
theorem whitelist_add_empty_gives_false :
    jsToLower "" = jsToLower "" ∧
    isUserWhitelisted true (addToWhitelist emptyStore "").2 "" = false :=
  ⟨rfl, by decide⟩

/-- Claim C9 amended to non-empty identifiers: identifiers are lowercased
before every set operation, so adding one case variant makes any non-empty
case variant of it a member (whitelist enabled, store healthy). -/
theorem whitelist_membership_case_insensitive (st : Store) (u v : String)
    (hf : st.failing = false) (hu : u ≠ "") (hv : v ≠ "")
    (hlow : jsToLower u = jsToLower v) :
    isUserWhitelisted true (addToWhitelist st u).2 v = true := by
  have hres : (addToWhitelist st u).2
      = { st with whitelist := sAddL st.whitelist (jsToLower u) } := by
    simp [addToWhitelist, hu, hf]
  rw [hres]
  simp [isUserWhitelisted, hv, hf, ← hlow, mem_sAddL]

/-- Witness for the amended C9 at two concrete case variants. -/
theorem whitelist_membership_case_insensitive_wit :
    emptyStore.failing = false ∧ ("Alice@X.com" : String) ≠ "" ∧
    ("alice@x.COM" : String) ≠ "" ∧
    jsToLower "Alice@X.com" = jsToLower "alice@x.COM" ∧
    isUserWhitelisted true (addToWhitelist emptyStore "Alice@X.com").2
      "alice@x.COM" = true :=
  ⟨by decide, by decide, by decide, by decide,
   whitelist_membership_case_insensitive emptyStore "Alice@X.com" "alice@x.COM"
     (by decide) (by decide) (by decide) (by decide)⟩

/-- Counterexample to the restoration clause of claim C10: for an identifier
that was already a member, add followed by remove leaves IsWhitelisted
false, which is not the pre-add membership state (which was true). -/
theorem add_remove_not_restoring :
    isUserWhitelisted true stOneMember "a@x.com" = true ∧
    isUserWhitelisted true
      ((removeFromWhitelist (addToWhitelist stOneMember "a@x.com").2 "a@x.com").2)
      "a@x.com" = false := by
  decide

/-- Claim C10 amended: with the whitelist enabled and a healthy store, add
followed by remove always leaves IsWhitelisted false; this equals the
pre-add membership state exactly when the identifier was not already a
member. -/
theorem add_remove_leaves_nonmember (st : Store) (idv : String)
    (hf : st.failing = false) :
    isUserWhitelisted true
      ((removeFromWhitelist (addToWhitelist st idv).2 idv).2) idv = false ∧
    (st.whitelist.contains (jsToLower idv) = false →
      isUserWhitelisted true
        ((removeFromWhitelist (addToWhitelist st idv).2 idv).2) idv
        = isUserWhitelisted true st idv) := by
  by_cases hid : idv = ""
  · subst hid
    simp [addToWhitelist, removeFromWhitelist, isUserWhitelisted]
  · have hfin : (removeFromWhitelist (addToWhitelist st idv).2 idv).2
        = { st with whitelist := sRemL (sAddL st.whitelist (jsToLower idv)) (jsToLower idv) } := by
      simp [addToWhitelist, removeFromWhitelist, hid, hf]
    constructor
    · rw [hfin]
      simp [isUserWhitelisted, hid, hf, not_mem_sRemL]
    · intro hpre
      have hpre2 : jsToLower idv ∉ st.whitelist := by simpa using hpre
      rw [hfin]
      simp [isUserWhitelisted, hid, hf, not_mem_sRemL, hpre2]

/-- Witness for the amended C10 at a concrete store and identifier. -/
theorem add_remove_leaves_nonmember_wit :
    emptyStore.failing = false ∧
    isUserWhitelisted true
      ((removeFromWhitelist (addToWhitelist emptyStore "Bob@X").2 "Bob@X").2)
      "Bob@X" = false :=
  ⟨by decide, (add_remove_leaves_nonmember emptyStore "Bob@X" (by decide)).1⟩

/-- Claim C3: in the module scope of the source, which never declares
ADMIN_EMAIL, the whitelist-remove handler reaches the ADMIN_EMAIL reference
for every non-empty identifier, raises ReferenceError, and answers from the
catch branch with status 500, leaving the store untouched; the removal and
verification branch is unreachable. -/
theorem whitelistRemove_always_500 (enable : Bool) (identifier : Option String)
    (st : Store) (h : jsTruthy identifier = true) :
    whitelistRemove enable backendScope identifier st = (.internalError, st) ∧
    removeStatus RemoveResult.internalError = 500 := by
  refine ⟨?_, rfl⟩
  match identifier with
  | none => simp [jsTruthy] at h
  | some idv =>
      have hne : idv ≠ "" := by simpa [jsTruthy] using h
      have hAE : rget backendScope "ADMIN_EMAIL" = none := by decide
      simp [whitelistRemove, hne, hAE]

/-- Witness for C3 at a concrete identifier and store. -/
theorem whitelistRemove_always_500_wit :
    jsTruthy (some "b@x.com") = true ∧
    (whitelistRemove true backendScope (some "b@x.com") stOneMember
        = (.internalError, stOneMember) ∧
      removeStatus RemoveResult.internalError = 500) :=
  ⟨by decide,
   whitelistRemove_always_500 true (some "b@x.com") stOneMember (by decide)⟩

/-- Counterexample to claim C1 as stated: with one admin already present, a
call with a wrong setup key is answered ForbiddenError, not ConflictError,
because the source checks the setup key before the admin-count guard. -/
theorem adminSetup_wrong_key_after_admin :
    stOneAdmin.admins ≠ [] ∧
    adminSetup (some "setup-key") (some "wrong-key") (some "b@x.com") stOneAdmin
      = (.forbidden, stOneAdmin) ∧
    (adminSetup (some "setup-key") (some "wrong-key") (some "b@x.com") stOneAdmin).1
      ≠ SetupResult.conflict := by
  decide

/-- Claim C1 amended: once at least one admin exists (healthy store), the
setup endpoint never succeeds again: it answers ConflictError exactly when
the correct configured setup key and a non-empty identifier are supplied,
ForbiddenError when the key is wrong or unconfigured, and BadRequestError
when only the identifier is missing; the store is never changed. -/
theorem adminSetup_after_admin (cfgKey setupKey adminId : Option String)
    (st : Store) (hA : st.admins ≠ []) (hf : st.failing = false) :
    adminSetup cfgKey setupKey adminId st =
      (if jsTruthy cfgKey = true ∧ setupKey = cfgKey then
        (if jsTruthy adminId = true then (.conflict, st) else (.badRequest, st))
       else (.forbidden, st)) := by
  have hlen : 0 < st.admins.length := List.length_pos.mpr hA
  unfold adminSetup
  split_ifs <;> simp_all

/-- Witness for the amended C1: with one admin present and the right key and
identifier, the endpoint answers ConflictError and changes nothing. -/
theorem adminSetup_after_admin_wit :
    stOneAdmin.admins ≠ [] ∧ stOneAdmin.failing = false ∧
    adminSetup (some "setup-key") (some "setup-key") (some "b@x.com") stOneAdmin
      = (.conflict, stOneAdmin) := by
  refine ⟨by decide, by decide, ?_⟩
  have h := adminSetup_after_admin (some "setup-key") (some "setup-key")
    (some "b@x.com") stOneAdmin (by decide) (by decide)
  rw [h]
  decide

/-- Counterexample to claim C2: on a stored Google session whose expires_at
has passed, the regular policy rejects the token as expired (status 401) and
deletes the record, while the admin policy resolves the very same token to
its identity and, here, forwards the request; the two policies do not
resolve tokens by the same procedure. -/
theorem adminPolicy_accepts_expired_session :
    (resolveForWhitelist stExpired (some "tkn") 2000).1 = Resolution.expired ∧
    (resolveForWhitelist stExpired (some "tkn") 2000).2.gsessions = [] ∧
    (resolveForAdmin stExpired (some "tkn")).1 = Resolution.okId "u@x.com" true ∧
    (resolveForAdmin stExpired (some "tkn")).2 = stExpired ∧
    (checkWhitelistMiddleware true stExpired (some "tkn") 2000).1
      = MwOutcome.reject 401 ∧
    (checkAdminMiddleware false stExpired (some "tkn")).1
      = MwOutcome.next (some "u@x.com") := by
  decide

/-- Claim C2 amended: with the emergency bypass inactive, the admin policy
resolves a token by the same lookup and identity derivation as the regular
policy except that it performs no expires_at check: whenever the regular
resolution does not end in expiry the two resolutions agree exactly and
neither changes the store; on an expired IdentitySession they diverge as the
counterexample shows. -/
theorem adminResolve_refines_regular (st : Store) (token : Option String)
    (now : Nat) (h : (resolveForWhitelist st token now).1 ≠ Resolution.expired) :
    resolveForAdmin st token = ((resolveForWhitelist st token now).1, st) ∧
    (resolveForWhitelist st token now).2 = st := by
  match token with
  | none => simp [resolveForWhitelist, resolveForAdmin]
  | some tok =>
    by_cases ht : tok = ""
    · simp [resolveForWhitelist, resolveForAdmin, ht]
    · by_cases hfail : st.failing
      · simp [resolveForWhitelist, resolveForAdmin, ht, hfail]
      · rcases hz : rget st.zsessions tok with _ | z
        · rcases hg : rget st.gsessions tok with _ | g
          · simp [resolveForWhitelist, resolveForAdmin, ht, hfail, hz, hg]
          · rcases he : g.expires_at with _ | e
            · rcases hj : jsOr g.email g.guser_id with _ | uid
              · simp [resolveForWhitelist, resolveForAdmin, googleUid, ht,
                  hfail, hz, hg, he, hj]
              · by_cases hu : uid = "" <;>
                  simp [resolveForWhitelist, resolveForAdmin, googleUid, ht,
                    hfail, hz, hg, he, hj, hu]
            · by_cases hexp : now > e
              · exfalso
                apply h
                simp [resolveForWhitelist, ht, hfail, hz, hg, he, hexp]
              · rcases hj : jsOr g.email g.guser_id with _ | uid
                · simp [resolveForWhitelist, resolveForAdmin, googleUid, ht,
                    hfail, hz, hg, he, hexp, hj]
                · by_cases hu : uid = "" <;>
                    simp [resolveForWhitelist, resolveForAdmin, googleUid, ht,
                      hfail, hz, hg, he, hexp, hj, hu]
        · by_cases hu : z.user_id = "" <;>
            simp [resolveForWhitelist, resolveForAdmin, ht, hfail, hz, hu]

/-- Witness for the amended C2 at a token that resolves to nothing. -/
theorem adminResolve_refines_regular_wit :
    (resolveForWhitelist emptyStore (some "t") 0).1 ≠ Resolution.expired ∧
    (resolveForAdmin emptyStore (some "t")
        = ((resolveForWhitelist emptyStore (some "t") 0).1, emptyStore) ∧
      (resolveForWhitelist emptyStore (some "t") 0).2 = emptyStore) :=
  ⟨by decide, adminResolve_refines_regular emptyStore (some "t") 0 (by decide)⟩

/-- Claim C6: resolving an IdentitySession token whose stored expires_at
lies before the current time rejects the request (status 401), deletes the
stored record, and a subsequent resolution of the same token misses and is
rejected again with the same status; the expiry is idempotent. -/
theorem resolveExpired_deletes_idempotent (st : Store) (tok : String)
    (g : GoogleSession) (e now : Nat)
    (hf : st.failing = false) (ht : tok ≠ "")
    (hz : rget st.zsessions tok = none)
    (hg : rget st.gsessions tok = some g)
    (he : g.expires_at = some e) (hlt : e < now) :
    resolveForWhitelist st (some tok) now
      = (.expired, { st with gsessions := rdel st.gsessions tok }) ∧
    rget (rdel st.gsessions tok) tok = none ∧
    resolveForWhitelist { st with gsessions := rdel st.gsessions tok }
        (some tok) now
      = (.notFound, { st with gsessions := rdel st.gsessions tok }) ∧
    checkWhitelistMiddleware true st (some tok) now
      = (.reject 401, { st with gsessions := rdel st.gsessions tok }) ∧
    checkWhitelistMiddleware true
        { st with gsessions := rdel st.gsessions tok } (some tok) now
      = (.reject 401, { st with gsessions := rdel st.gsessions tok }) := by
  have hrd := rget_rdel st.gsessions tok
  have h1 : resolveForWhitelist st (some tok) now
      = (.expired, { st with gsessions := rdel st.gsessions tok }) := by
    simp [resolveForWhitelist, ht, hf, hz, hg, he, hlt]
  have h2 : resolveForWhitelist { st with gsessions := rdel st.gsessions tok }
      (some tok) now
      = (.notFound, { st with gsessions := rdel st.gsessions tok }) := by
    simp [resolveForWhitelist, ht, hf, hz, hrd]
  refine ⟨h1, hrd, h2, ?_, ?_⟩
  · simp [checkWhitelistMiddleware, h1]
  · simp [checkWhitelistMiddleware, h2]

/-- Witness for C6 at a concrete expired Google session. -/
theorem resolveExpired_deletes_idempotent_wit :
    stExpired.failing = false ∧ ("tkn" : String) ≠ "" ∧
    rget stExpired.zsessions "tkn" = none ∧
    rget stExpired.gsessions "tkn" = some gExpired ∧
    gExpired.expires_at = some 1000 ∧ 1000 < 2000 ∧
    (resolveForWhitelist stExpired (some "tkn") 2000).1 = Resolution.expired := by
  refine ⟨by decide, by decide, by decide, by decide, by decide, by decide, ?_⟩
  have h := (resolveExpired_deletes_idempotent stExpired "tkn" gExpired 1000 2000
    (by decide) (by decide) (by decide) (by decide) (by decide) (by decide)).1
  rw [h]

end StockBackend
